import Mathlib

/-!
Shallow embedding of the location core of the loopin app:
`src/circleback/src/services/googleMapsService.ts` and
`src/circleback/src/services/locationScheduler.ts`.

Conventions of the embedding:
* instants (`Date.getTime()`) are modelled as `Int` milliseconds since epoch;
  `new Date()` becomes an explicit `now : Int` parameter threaded through;
* JS number arithmetic in `isCachedLocationFresh` is modelled over `Rat`
  (exact; for millisecond-scale integer inputs the double rounding of the
  source cannot flip the `< 12` comparison);
* the ambient effects (geolocation, geocoder callback, fetch, localStorage)
  are modelled by explicit environment records and explicit state parameters;
* a thrown JS error / rejected promise is `Except.error` carrying the message;
* an optional callback invocation (`onLocationUpdate` / `onLocationError`)
  is modelled as an emitted `CallbackEvent`.
-/

namespace Loopin

/-- Accuracy tier of a geocoding result (googleMapsService.ts `CityInfo.accuracy`). -/
inductive Accuracy where
  | high
  | medium
  | low
  deriving DecidableEq

/-- Source tag of a `LocationResult` (googleMapsService.ts `LocationResult.source`). -/
inductive Source where
  | live
  | cached
  | fallback
  deriving DecidableEq

/-- googleMapsService.ts `LocationCoordinates`. -/
structure LocationCoordinates where
  latitude : Rat
  longitude : Rat
  deriving DecidableEq

/-- googleMapsService.ts `CityInfo`. -/
structure CityInfo where
  city : String
  country : String
  fullAddress : Option String := none
  accuracy : Option Accuracy := none
  deriving DecidableEq

/-- googleMapsService.ts `LocationResult`; `timestamp` is epoch milliseconds. -/
structure LocationResult where
  coordinates : LocationCoordinates
  cityInfo : CityInfo
  timestamp : Int
  source : Source
  deriving DecidableEq

/-- One entry of `google.maps.GeocoderResult.address_components`. -/
structure AddressComponent where
  long_name : String
  types : List String
  deriving DecidableEq

/-- The fields of `google.maps.GeocoderResult` the service reads. -/
structure GeocoderResult where
  address_components : List AddressComponent
  types : List String
  formatted_address : String
  deriving DecidableEq

/-- The `address` object of a Nominatim (OpenStreetMap) reverse-geocode reply;
`none` models an absent JS field. -/
structure OSMAddress where
  city : Option String := none
  town : Option String := none
  village : Option String := none
  municipality : Option String := none
  country : Option String := none
  deriving DecidableEq

/-- The Nominatim reply body as read by `fallbackToOpenStreetMap`. -/
structure OSMData where
  address : Option OSMAddress := none
  display_name : Option String := none
  deriving DecidableEq

/-- Environment of one `getCityFromCoordinates` call: the outcome of
`loader.load()` (initialization), of the geocoder callback (status `OK` with
results, or a failing status string), and of the OpenStreetMap fetch
(a parsed body, or a network/HTTP failure). -/
structure GeoEnv where
  initResult : Except String Unit
  geocodeResult : Except String (List GeocoderResult)
  osmResult : Except String OSMData

/-- JS `a || b || ... || dflt` over possibly-absent strings: the first present,
non-empty (truthy) string wins, else the default. -/
def firstTruthy : List (Option String) → String → String
  | [], dflt => dflt
  | some s :: rest, dflt => if s = "" then firstTruthy rest dflt else s
  | none :: rest, dflt => firstTruthy rest dflt

/-- The `for (const component of addressComponents)` loop of
`getCityFromCoordinates` (googleMapsService.ts lines 87-98): locality wins for
city, a first-level administrative area only if city is still unset, country
independently. -/
def extractCityCountry (comps : List AddressComponent) : String × String :=
  comps.foldl
    (fun acc c =>
      if c.types.contains "locality" then
        (c.long_name, acc.2)
      else if c.types.contains "administrative_area_level_1" && acc.1 == "Unknown City" then
        (c.long_name, acc.2)
      else if c.types.contains "country" then
        (acc.1, c.long_name)
      else acc)
    ("Unknown City", "Unknown Country")

/-- The accuracy classification of `getCityFromCoordinates`
(googleMapsService.ts lines 100-106). -/
def classifyAccuracy (types : List String) : Accuracy :=
  if types.contains "street_address" || types.contains "premise" then
    Accuracy.high
  else if types.contains "administrative_area_level_2" then
    Accuracy.low
  else
    Accuracy.medium

/-- The primary-provider leg of `getCityFromCoordinates`: the geocode promise
plus the empty-results check and the field extraction of lines 76-113. -/
def geocodePrimary (env : GeoEnv) : Except String CityInfo :=
  match env.geocodeResult with
  | Except.error status => Except.error ("Geocoding failed: " ++ status)
  | Except.ok [] => Except.error "No results found"
  | Except.ok (result :: _) =>
      let cc := extractCityCountry result.address_components
      Except.ok
        { city := cc.1
          country := cc.2
          fullAddress := some result.formatted_address
          accuracy := some (classifyAccuracy result.types) }

/-- googleMapsService.ts `fallbackToOpenStreetMap` (lines 124-160): on a
successful fetch, city from the first truthy of city/town/village/municipality,
country likewise, fixed `medium` accuracy; on a failed fetch, the Unknown
sentinel with `low` accuracy. -/
def fallbackToOpenStreetMap (env : GeoEnv) : CityInfo :=
  match env.osmResult with
  | Except.error _ =>
      { city := "Unknown City", country := "Unknown Country", accuracy := some Accuracy.low }
  | Except.ok data =>
      let city := firstTruthy
        [data.address.bind OSMAddress.city, data.address.bind OSMAddress.town,
         data.address.bind OSMAddress.village, data.address.bind OSMAddress.municipality]
        "Unknown City"
      let country := firstTruthy [data.address.bind OSMAddress.country] "Unknown Country"
      { city := city, country := country, fullAddress := data.display_name,
        accuracy := some Accuracy.medium }

/-- googleMapsService.ts `getCityFromCoordinates` (lines 57-122): `initialize`
rethrows its failure before the try block; inside the try, a primary-provider
failure falls back to OpenStreetMap, whose own failure is absorbed into the
sentinel. -/
def getCityFromCoordinates (env : GeoEnv) : Except String CityInfo :=
  match env.initResult with
  | Except.error _ => Except.error "Failed to initialize Google Maps service"
  | Except.ok _ =>
      match geocodePrimary env with
      | Except.ok cityInfo => Except.ok cityInfo
      | Except.error _ => Except.ok (fallbackToOpenStreetMap env)

/-- googleMapsService.ts `isCachedLocationFresh` (lines 231-236):
`hoursDiff = (now - cacheTime) / (1000*60*60); return hoursDiff < 12`. -/
def isCachedLocationFresh (now : Int) (cachedLocation : LocationResult) : Bool :=
  ((now - cachedLocation.timestamp : Int) : Rat) / (1000 * 60 * 60) < 12

/-- googleMapsService.ts `cacheLocation` (lines 219-228): overwrites the single
`lastKnownLocation` entry, re-tagging the stored value with `source: cached`. -/
def cacheLocation (_cache : Option LocationResult) (location : LocationResult) :
    Option LocationResult :=
  some { location with source := Source.cached }

/-- googleMapsService.ts `getCachedLocation` (lines 200-216): reads the single
entry, re-tagging the returned value with `source: cached`. -/
def getCachedLocation (cache : Option LocationResult) : Option LocationResult :=
  cache.map fun parsed => { parsed with source := Source.cached }

/-- locationScheduler.ts `LocationUpdate`; `location := none` models the
`{} as LocationResult` placeholder stored for failed updates. -/
structure LocationUpdate where
  timestamp : Int
  location : Option LocationResult
  success : Bool
  error : Option String := none
  deriving DecidableEq

/-- locationScheduler.ts `maxHistorySize`. -/
def maxHistorySize : Nat := 10

/-- locationScheduler.ts `recordUpdate` (lines 148-165): unshift the new
record, then truncate with `slice(0, maxHistorySize)` when over the bound. -/
def recordUpdate (hist : List LocationUpdate) (now : Int)
    (location : Option LocationResult) (success : Bool) (error : Option String) :
    List LocationUpdate :=
  let h := ({ timestamp := now, location := location, success := success,
              error := error } : LocationUpdate) :: hist
  if h.length > maxHistorySize then h.take maxHistorySize else h

/-- An invocation of a registered callback: `onLocationUpdate loc` or
`onLocationError msg`. -/
inductive CallbackEvent where
  | update (location : LocationResult)
  | error (msg : String)
  deriving DecidableEq

/-- Environment of one pipeline run: the wall clock at the run and the outcome
of `googleMapsService.getCurrentLocation()`. -/
structure RunEnv where
  now : Int
  liveResult : Except String LocationResult

/-- Observable outcome of one pipeline run: the update history and cache after
the run, and the callback invocations it emitted, in order. -/
structure PipelineOut where
  history : List LocationUpdate
  cache : Option LocationResult
  events : List CallbackEvent

/-- locationScheduler.ts `tryLocationUpdate` (lines 93-146): live success
caches, records and notifies; on live failure a fresh cached snapshot is
re-stamped (`timestamp := now`, `source := cached`), recorded as success and
delivered; otherwise a failure is recorded and `onLocationError` invoked. -/
def tryLocationUpdate (label : String) (env : RunEnv)
    (hist : List LocationUpdate) (cache : Option LocationResult) : PipelineOut :=
  match env.liveResult with
  | Except.ok location =>
      { history := recordUpdate hist env.now (some location) true none
        cache := cacheLocation cache location
        events := [CallbackEvent.update location] }
  | Except.error e =>
      let errorMessage := "Failed to get " ++ label ++ " location: " ++ e
      let failureOut : PipelineOut :=
        { history := recordUpdate hist env.now none false (some errorMessage)
          cache := cache
          events := [CallbackEvent.error errorMessage] }
      match getCachedLocation cache with
      | some cachedLocation =>
          if isCachedLocationFresh env.now cachedLocation then
            let updatedCachedLocation : LocationResult :=
              { cachedLocation with timestamp := env.now, source := Source.cached }
            { history := recordUpdate hist env.now (some updatedCachedLocation) true none
              cache := cache
              events := [CallbackEvent.update updatedCachedLocation] }
          else failureOut
      | none => failureOut

/-- locationScheduler.ts `forceUpdate` (lines 191-221): live success caches,
records and notifies, returning the live snapshot; on live failure any cached
snapshot (no freshness check) is returned as-is with nothing recorded and no
callback; with an empty cache a failure is recorded, `onLocationError` invoked,
and the error rethrown. -/
def forceUpdate (env : RunEnv) (hist : List LocationUpdate)
    (cache : Option LocationResult) : Except String LocationResult × PipelineOut :=
  match env.liveResult with
  | Except.ok location =>
      (Except.ok location,
       { history := recordUpdate hist env.now (some location) true none
         cache := cacheLocation cache location
         events := [CallbackEvent.update location] })
  | Except.error e =>
      match getCachedLocation cache with
      | some cachedLocation => (Except.ok cachedLocation, { history := hist, cache := cache, events := [] })
      | none =>
          let errorMessage := "Manual location update failed: " ++ e
          (Except.error errorMessage,
           { history := recordUpdate hist env.now none false (some errorMessage)
             cache := cache
             events := [CallbackEvent.error errorMessage] })

/-- locationScheduler.ts `ScheduledTime`. -/
structure ScheduledTime where
  hour : Nat
  minute : Nat
  label : String
  deriving DecidableEq

/-- locationScheduler.ts `scheduledTimes`: the three fixed daily slots. -/
def scheduledTimes : List ScheduledTime :=
  [{ hour := 8, minute := 0, label := "Morning" },
   { hour := 14, minute := 0, label := "Afternoon" },
   { hour := 20, minute := 0, label := "Evening" }]

/-- The scheduler's mutable state: `isActive`, the armed timers (`intervals`,
here the labels of the slots they serve), the update history and the location
cache the pipeline reads and writes. -/
structure SchedulerState where
  isActive : Bool
  intervals : List String
  history : List LocationUpdate
  cache : Option LocationResult
  deriving DecidableEq

/-- locationScheduler.ts `start` (lines 36-55): a no-op when already active;
otherwise set active, arm one timer per slot (`scheduleUpdate` pushes one
timeout per slot), then immediately run `tryLocationUpdate('Initial')`. -/
def start (env : RunEnv) (s : SchedulerState) : SchedulerState × List CallbackEvent :=
  if s.isActive then (s, [])
  else
    let armed := s.intervals ++ scheduledTimes.map ScheduledTime.label
    let r := tryLocationUpdate "Initial" env s.history s.cache
    ({ isActive := true, intervals := armed, history := r.history, cache := r.cache },
     r.events)

/-- locationScheduler.ts `stop` (lines 57-65): a no-op when not active;
otherwise clear every armed timer and deactivate. -/
def stop (s : SchedulerState) : SchedulerState :=
  if !s.isActive then s
  else { s with intervals := [], isActive := false }

/-- A slot timer firing (`scheduleUpdate`, lines 67-91): run the pipeline for
the slot and re-arm by pushing the next timeout for the same slot. -/
def slotFire (label : String) (env : RunEnv) (s : SchedulerState) :
    SchedulerState × List CallbackEvent :=
  let r := tryLocationUpdate label env s.history s.cache
  ({ s with intervals := s.intervals ++ [label], history := r.history, cache := r.cache },
   r.events)

/-- `forceUpdate` as a transition on the scheduler state. -/
def forceStep (env : RunEnv) (s : SchedulerState) : SchedulerState :=
  let r := (forceUpdate env s.history s.cache).2
  { s with history := r.history, cache := r.cache }

/-- The scheduler states reachable from construction (inactive, no timers,
any persisted history and cache) through the exposed operations; a slot timer
can only fire while the scheduler is active (stop clears it). -/
inductive Reachable : SchedulerState → Prop where
  | init (history : List LocationUpdate) (cache : Option LocationResult) :
      Reachable { isActive := false, intervals := [], history := history, cache := cache }
  | started (env : RunEnv) (s : SchedulerState) :
      Reachable s → Reachable (start env s).1
  | stopped (s : SchedulerState) :
      Reachable s → Reachable (stop s)
  | fired (label : String) (env : RunEnv) (s : SchedulerState) :
      Reachable s → s.isActive = true → Reachable (slotFire label env s).1
  | forced (env : RunEnv) (s : SchedulerState) :
      Reachable s → Reachable (forceStep env s)

/-! ### Helper lemmas shared by the claim theorems -/

/-- The freshness predicate, characterized over integer milliseconds:
fresh exactly when the age is below 12 h = 43 200 000 ms. -/
theorem isCachedLocationFresh_eq (now : Int) (s : LocationResult) :
    isCachedLocationFresh now s = decide (now - s.timestamp < 43200000) := by
  unfold isCachedLocationFresh
  rw [decide_eq_decide, div_lt_iff₀ (by norm_num : (0:ℚ) < 1000 * 60 * 60)]
  have h12 : (12 : ℚ) * (1000 * 60 * 60) = ((43200000 : Int) : ℚ) := by norm_num
  rw [h12, Int.cast_lt]

/-- Live-success branch of the scheduled pipeline. -/
theorem tryLocationUpdate_live (label : String) (env : RunEnv)
    (hist : List LocationUpdate) (cache : Option LocationResult)
    (location : LocationResult) (h : env.liveResult = Except.ok location) :
    tryLocationUpdate label env hist cache =
      { history := recordUpdate hist env.now (some location) true none
        cache := some { location with source := Source.cached }
        events := [CallbackEvent.update location] } := by
  unfold tryLocationUpdate
  rw [h]
  rfl

/-- Fresh-cached-fallback branch of the scheduled pipeline. -/
theorem tryLocationUpdate_cachedFresh (label e : String) (env : RunEnv)
    (hist : List LocationUpdate) (cache : Option LocationResult)
    (cl : LocationResult) (h : env.liveResult = Except.error e)
    (hc : getCachedLocation cache = some cl)
    (hf : isCachedLocationFresh env.now cl = true) :
    tryLocationUpdate label env hist cache =
      { history := recordUpdate hist env.now
          (some { cl with timestamp := env.now, source := Source.cached }) true none
        cache := cache
        events := [CallbackEvent.update
          { cl with timestamp := env.now, source := Source.cached }] } := by
  unfold tryLocationUpdate
  rw [h, hc]
  simp only [hf, if_true]

/-- Failure branch of the scheduled pipeline: live failed and the cache is
empty or stale. -/
theorem tryLocationUpdate_failure (label e : String) (env : RunEnv)
    (hist : List LocationUpdate) (cache : Option LocationResult)
    (h : env.liveResult = Except.error e)
    (hc : ∀ cl, getCachedLocation cache = some cl →
      isCachedLocationFresh env.now cl = false) :
    tryLocationUpdate label env hist cache =
      { history := recordUpdate hist env.now none false
          (some ("Failed to get " ++ label ++ " location: " ++ e))
        cache := cache
        events := [CallbackEvent.error
          ("Failed to get " ++ label ++ " location: " ++ e)] } := by
  unfold tryLocationUpdate
  rw [h]
  cases hcc : getCachedLocation cache with
  | none => rfl
  | some cl => simp only [hc cl hcc, if_false, Bool.false_eq_true]

/-- A concrete snapshot used to instantiate universally quantified theorems. -/
def sampleSnapshot : LocationResult :=
  { coordinates := { latitude := 0, longitude := 0 }
    cityInfo := { city := "Paris", country := "France" }
    timestamp := 0
    source := Source.live }

/-- `sampleSnapshot` as the cache stores it. -/
def cachedParis : LocationResult := { sampleSnapshot with source := Source.cached }

/-! ### Claim theorems -/

/-- Claim C4: for every snapshot `s` and evaluation time `now`,
`isCachedLocationFresh` is true if and only if `now - s.timestamp` is below
12 hours (43 200 000 ms); an age of exactly 12 hours is stale; and, the
predicate being a pure function of the read-time clock, the same unmodified
snapshot is fresh at age 11 h and stale at age 12 h with no write in
between. -/
theorem freshness_window_spec :
    (∀ (now : Int) (s : LocationResult),
        isCachedLocationFresh now s = decide (now - s.timestamp < 43200000)) ∧
    isCachedLocationFresh 39600000 sampleSnapshot = true ∧
    isCachedLocationFresh 43200000 sampleSnapshot = false := by
  refine ⟨isCachedLocationFresh_eq, ?_, ?_⟩ <;>
    rw [isCachedLocationFresh_eq] <;> decide

/-- Claim C5: recording an update prepends the new record, the history never
exceeds 10 records, a history not yet at the bound is extended by one, and at
the bound the oldest record (the last of the most-recent-first list) is evicted
so that the 10 most recent remain, most-recent-first. -/
theorem recordUpdate_bounded_spec :
    ∀ (hist : List LocationUpdate) (now : Int) (location : Option LocationResult)
      (success : Bool) (error : Option String),
      hist.length ≤ maxHistorySize →
      (recordUpdate hist now location success error).length ≤ maxHistorySize ∧
      recordUpdate hist now location success error =
        (({ timestamp := now, location := location, success := success, error := error } :
            LocationUpdate) :: hist).take maxHistorySize ∧
      (hist.length < maxHistorySize →
        recordUpdate hist now location success error =
          ({ timestamp := now, location := location, success := success, error := error } :
            LocationUpdate) :: hist) ∧
      (hist.length = maxHistorySize →
        recordUpdate hist now location success error =
          ({ timestamp := now, location := location, success := success, error := error } :
            LocationUpdate) :: hist.take (maxHistorySize - 1)) := by
  intro hist now location success error hle
  simp only [recordUpdate, List.length_cons]
  by_cases hlt : hist.length + 1 > maxHistorySize
  · rw [if_pos hlt]
    refine ⟨?_, rfl, fun habs => ?_, fun _ => rfl⟩
    · rw [List.length_take]
      exact Nat.min_le_left _ _
    · exfalso
      unfold maxHistorySize at hlt habs
      omega
  · rw [if_neg hlt]
    have hlen : hist.length + 1 ≤ maxHistorySize := by omega
    refine ⟨?_, ?_, fun _ => rfl, fun habs => ?_⟩
    · simpa using hlen
    · exact (List.take_of_length_le (by simpa using hlen)).symm
    · exfalso
      unfold maxHistorySize at hlt habs
      omega

/-- A concrete failed-update record used to instantiate history theorems. -/
def sampleUpdateRecord : LocationUpdate :=
  { timestamp := 0, location := none, success := false, error := some "seed" }

/-- A history already at the 10-record bound. -/
def fullHistory : List LocationUpdate := List.replicate maxHistorySize sampleUpdateRecord

/-- Witness for C5: the history bound theorem applied to a concrete full
history. -/
theorem recordUpdate_bounded_spec_witness :
    fullHistory.length ≤ maxHistorySize ∧
    ((recordUpdate fullHistory 5 none true none).length ≤ maxHistorySize ∧
     recordUpdate fullHistory 5 none true none =
       (({ timestamp := 5, location := none, success := true, error := none } :
           LocationUpdate) :: fullHistory).take maxHistorySize ∧
     (fullHistory.length < maxHistorySize →
       recordUpdate fullHistory 5 none true none =
         ({ timestamp := 5, location := none, success := true, error := none } :
           LocationUpdate) :: fullHistory) ∧
     (fullHistory.length = maxHistorySize →
       recordUpdate fullHistory 5 none true none =
         ({ timestamp := 5, location := none, success := true, error := none } :
           LocationUpdate) :: fullHistory.take (maxHistorySize - 1))) :=
  ⟨by simp [fullHistory],
   recordUpdate_bounded_spec fullHistory 5 none true none (by simp [fullHistory])⟩

/-- Claim C6: a primary-provider result whose types include `premise` or
`street_address` is classified `high`; otherwise one whose types include
`administrative_area_level_2` is classified `low`; any other combination is
classified `medium`. -/
theorem classifyAccuracy_spec :
    ∀ (ts : List String),
      (("premise" ∈ ts ∨ "street_address" ∈ ts) → classifyAccuracy ts = Accuracy.high) ∧
      ("premise" ∉ ts → "street_address" ∉ ts → "administrative_area_level_2" ∈ ts →
        classifyAccuracy ts = Accuracy.low) ∧
      ("premise" ∉ ts → "street_address" ∉ ts → "administrative_area_level_2" ∉ ts →
        classifyAccuracy ts = Accuracy.medium) := by
  intro ts
  refine ⟨?_, ?_, ?_⟩
  · rintro (h | h) <;> simp [classifyAccuracy, h]
  · intro h1 h2 h3
    simp [classifyAccuracy, h1, h2, h3]
  · intro h1 h2 h3
    simp [classifyAccuracy, h1, h2, h3]

/-- Witness for C6: the classification theorem applied at one concrete type
list per tier. -/
theorem classifyAccuracy_spec_witness :
    classifyAccuracy ["street_address", "administrative_area_level_2"] = Accuracy.high ∧
    classifyAccuracy ["administrative_area_level_2", "political"] = Accuracy.low ∧
    classifyAccuracy ["locality", "political"] = Accuracy.medium :=
  ⟨(classifyAccuracy_spec _).1 (Or.inr (by decide)),
   (classifyAccuracy_spec _).2.1 (by decide) (by decide) (by decide),
   (classifyAccuracy_spec _).2.2 (by decide) (by decide) (by decide)⟩

/-- A geocoding environment in which the Google Maps loader fails. -/
def envInitFail : GeoEnv :=
  { initResult := Except.error "Loader rejected"
    geocodeResult := Except.ok []
    osmResult := Except.ok {} }

/-- A geocoding environment in which initialization succeeds but both
providers fail. -/
def envProvidersFail : GeoEnv :=
  { initResult := Except.ok ()
    geocodeResult := Except.error "OVER_QUERY_LIMIT"
    osmResult := Except.error "OpenStreetMap request failed" }

/-- Counterexample to claim C3: when initialization (`loader.load()`) fails,
`getCityFromCoordinates` rethrows before reaching either provider, so the step
can fail rather than returning a CityInfo. -/
theorem getCityFromCoordinates_can_fail :
    getCityFromCoordinates envInitFail =
      Except.error "Failed to initialize Google Maps service" := rfl

/-- Claim C3 (amended): when initialization succeeds, `getCityFromCoordinates`
never fails — it always returns a CityInfo — and when both the primary
provider and the OpenStreetMap fallback fail it returns the sentinel
{Unknown City, Unknown Country, low}; only an initialization failure
propagates as an error. -/
theorem getCityFromCoordinates_total :
    ∀ (env : GeoEnv),
      env.initResult = Except.ok () →
      (∃ cityInfo, getCityFromCoordinates env = Except.ok cityInfo) ∧
      (∀ gs os, env.geocodeResult = Except.error gs → env.osmResult = Except.error os →
        getCityFromCoordinates env =
          Except.ok { city := "Unknown City", country := "Unknown Country",
                      fullAddress := none, accuracy := some Accuracy.low }) := by
  intro env h
  constructor
  · cases hg : geocodePrimary env with
    | ok cityInfo =>
        exact ⟨cityInfo, by unfold getCityFromCoordinates; rw [h, hg]⟩
    | error e =>
        exact ⟨fallbackToOpenStreetMap env, by unfold getCityFromCoordinates; rw [h, hg]⟩
  · intro gs os hg ho
    have hge : geocodePrimary env = Except.error ("Geocoding failed: " ++ gs) := by
      unfold geocodePrimary
      rw [hg]
    have hfb : fallbackToOpenStreetMap env =
        { city := "Unknown City", country := "Unknown Country",
          fullAddress := none, accuracy := some Accuracy.low } := by
      unfold fallbackToOpenStreetMap
      rw [ho]
    unfold getCityFromCoordinates
    rw [h, hge, hfb]

/-- Witness for C3 (amended): both providers failing after a successful
initialization yields the Unknown sentinel. -/
theorem getCityFromCoordinates_total_witness :
    envProvidersFail.initResult = Except.ok () ∧
    getCityFromCoordinates envProvidersFail =
      Except.ok { city := "Unknown City", country := "Unknown Country",
                  fullAddress := none, accuracy := some Accuracy.low } :=
  ⟨rfl, (getCityFromCoordinates_total envProvidersFail rfl).2
    "OVER_QUERY_LIMIT" "OpenStreetMap request failed" rfl rfl⟩

/-- A run environment whose live acquisition fails, 13 hours after
`cachedParis` was acquired. -/
def staleEnv : RunEnv := { now := 46800000, liveResult := Except.error "GPS unavailable" }

/-- A run environment whose live acquisition fails, 11 hours after
`cachedParis` was acquired. -/
def freshEnv : RunEnv := { now := 39600000, liveResult := Except.error "GPS unavailable" }

/-- Counterexample to claim C1: live acquisition fails and the cached snapshot
is 13 h old (stale), yet `forceUpdate` terminates successfully, returning the
stale snapshot, with no failure record and no onError invocation. -/
theorem forceUpdate_returns_stale_cache :
    (forceUpdate staleEnv [] (some cachedParis)).1 = Except.ok cachedParis ∧
    isCachedLocationFresh staleEnv.now cachedParis = false ∧
    (forceUpdate staleEnv [] (some cachedParis)).2.history = [] ∧
    (forceUpdate staleEnv [] (some cachedParis)).2.events = [] := by
  refine ⟨rfl, ?_, rfl, rfl⟩
  rw [isCachedLocationFresh_eq]
  decide

/-- Claim C1 (amended): a scheduled pipeline run in which live acquisition
fails and the cache is empty or stale records a failure, invokes onError and
delivers no snapshot, leaving the cache unchanged; `forceUpdate`, however,
reports an error only when the cache is empty — a cached snapshot, fresh or
stale, short-circuits its error path. -/
theorem stale_cache_error_spec :
    ∀ (label e : String) (env : RunEnv) (hist : List LocationUpdate)
      (cache : Option LocationResult),
      env.liveResult = Except.error e →
      (∀ cl, getCachedLocation cache = some cl →
        isCachedLocationFresh env.now cl = false) →
      ((tryLocationUpdate label env hist cache).events =
         [CallbackEvent.error ("Failed to get " ++ label ++ " location: " ++ e)] ∧
       ((tryLocationUpdate label env hist cache).history.head?).map LocationUpdate.success =
         some false ∧
       (tryLocationUpdate label env hist cache).cache = cache) ∧
      (cache = none →
        (forceUpdate env hist cache).1 =
          Except.error ("Manual location update failed: " ++ e) ∧
        (forceUpdate env hist cache).2.events =
          [CallbackEvent.error ("Manual location update failed: " ++ e)]) := by
  intro label e env hist cache h hc
  constructor
  · rw [tryLocationUpdate_failure label e env hist cache h hc]
    refine ⟨rfl, ?_, rfl⟩
    simp only [recordUpdate]
    split <;> rfl
  · rintro rfl
    unfold forceUpdate
    rw [h]
    exact ⟨rfl, rfl⟩

/-- Witness for C1 (amended): concrete stale-cache scheduled run and
empty-cache `forceUpdate`. -/
theorem stale_cache_error_spec_witness :
    (tryLocationUpdate "Morning" staleEnv [] (some cachedParis)).events =
      [CallbackEvent.error "Failed to get Morning location: GPS unavailable"] ∧
    ((tryLocationUpdate "Morning" staleEnv [] (some cachedParis)).history.head?).map
      LocationUpdate.success = some false ∧
    (tryLocationUpdate "Morning" staleEnv [] (some cachedParis)).cache = some cachedParis ∧
    (forceUpdate staleEnv [] none).1 =
      Except.error "Manual location update failed: GPS unavailable" ∧
    (forceUpdate staleEnv [] none).2.events =
      [CallbackEvent.error "Manual location update failed: GPS unavailable"] := by
  have hstale : ∀ cl, getCachedLocation (some cachedParis) = some cl →
      isCachedLocationFresh staleEnv.now cl = false := by
    intro cl hcl
    have he : cachedParis = cl := by
      have := Option.some.inj hcl
      rw [← this]
      rfl
    rw [← he, isCachedLocationFresh_eq]
    decide
  have h1 := (stale_cache_error_spec "Morning" "GPS unavailable" staleEnv []
    (some cachedParis) rfl hstale).1
  have h2 := (stale_cache_error_spec "Morning" "GPS unavailable" staleEnv []
    none rfl (fun cl hcl => Option.noConfusion hcl)).2 rfl
  exact ⟨h1.1, h1.2.1, h1.2.2, h2.1, h2.2⟩

/-- Counterexample to claim C2: live acquisition fails with a fresh (11 h)
cached snapshot, yet `forceUpdate` returns the snapshot with its original
acquisition timestamp (not re-stamped to now), records no success and invokes
no onUpdate. -/
theorem forceUpdate_fresh_cache_not_restamped :
    isCachedLocationFresh freshEnv.now cachedParis = true ∧
    (forceUpdate freshEnv [] (some cachedParis)).1 = Except.ok cachedParis ∧
    cachedParis.timestamp ≠ freshEnv.now ∧
    (forceUpdate freshEnv [] (some cachedParis)).2.history = [] ∧
    (forceUpdate freshEnv [] (some cachedParis)).2.events = [] := by
  refine ⟨?_, rfl, by decide, rfl, rfl⟩
  rw [isCachedLocationFresh_eq]
  decide

/-- Claim C2 (amended): in a scheduled run, live failure with a fresh cached
snapshot delivers that snapshot re-stamped (`source := cached`,
`timestamp := now`), records it as a success and invokes onUpdate; a
`forceUpdate` in the same situation instead returns the cached snapshot with
its original timestamp (tagged cached by the cache read), recording nothing
and invoking no callback. -/
theorem fresh_cache_fallback_spec :
    ∀ (label e : String) (env : RunEnv) (hist : List LocationUpdate)
      (cache : Option LocationResult) (cl : LocationResult),
      env.liveResult = Except.error e →
      getCachedLocation cache = some cl →
      isCachedLocationFresh env.now cl = true →
      (tryLocationUpdate label env hist cache).events =
        [CallbackEvent.update { cl with timestamp := env.now, source := Source.cached }] ∧
      (tryLocationUpdate label env hist cache).history.head? =
        some { timestamp := env.now,
               location := some { cl with timestamp := env.now, source := Source.cached },
               success := true, error := none } ∧
      (forceUpdate env hist cache).1 = Except.ok cl ∧
      (forceUpdate env hist cache).2.history = hist ∧
      (forceUpdate env hist cache).2.events = [] := by
  intro label e env hist cache cl h hc hf
  rw [tryLocationUpdate_cachedFresh label e env hist cache cl h hc hf]
  refine ⟨rfl, ?_, ?_, ?_, ?_⟩
  · simp only [recordUpdate]
    split <;> rfl
  · unfold forceUpdate
    rw [h, hc]
  · unfold forceUpdate
    rw [h, hc]
  · unfold forceUpdate
    rw [h, hc]

/-- Witness for C2 (amended): the fresh-cache fallback theorem at a concrete
environment $11$ hours after the cached acquisition. -/
theorem fresh_cache_fallback_spec_witness :
    (tryLocationUpdate "Afternoon" freshEnv [] (some cachedParis)).events =
      [CallbackEvent.update
        { cachedParis with timestamp := freshEnv.now, source := Source.cached }] ∧
    (tryLocationUpdate "Afternoon" freshEnv [] (some cachedParis)).history.head? =
      some { timestamp := freshEnv.now,
             location := some
               { cachedParis with timestamp := freshEnv.now, source := Source.cached },
             success := true, error := none } ∧
    (forceUpdate freshEnv [] (some cachedParis)).1 = Except.ok cachedParis ∧
    (forceUpdate freshEnv [] (some cachedParis)).2.history = ([] : List LocationUpdate) ∧
    (forceUpdate freshEnv [] (some cachedParis)).2.events = [] :=
  fresh_cache_fallback_spec "Afternoon" "GPS unavailable" freshEnv [] (some cachedParis)
    cachedParis rfl rfl (by rw [isCachedLocationFresh_eq]; decide)

/-- Counterexample to claim C7: a scheduled run that succeeds through the
cached-fallback path delivers a snapshot re-stamped to `now`, records it as a
success, yet leaves the cache holding the old snapshot — the cache does not
hold the delivered snapshot. -/
theorem cache_not_overwritten_on_fallback :
    (tryLocationUpdate "Morning" freshEnv [] (some cachedParis)).events =
      [CallbackEvent.update
        { cachedParis with timestamp := freshEnv.now, source := Source.cached }] ∧
    ((tryLocationUpdate "Morning" freshEnv [] (some cachedParis)).history.head?).map
      LocationUpdate.success = some true ∧
    (tryLocationUpdate "Morning" freshEnv [] (some cachedParis)).cache = some cachedParis ∧
    some cachedParis ≠
      some { cachedParis with timestamp := freshEnv.now, source := Source.cached } := by
  rw [tryLocationUpdate_cachedFresh "Morning" "GPS unavailable" freshEnv [] (some cachedParis)
    cachedParis rfl rfl (by rw [isCachedLocationFresh_eq]; decide)]
  refine ⟨rfl, ?_, rfl, by decide⟩
  simp only [recordUpdate]
  split <;> rfl

/-- Claim C7 (amended): the cache is overwritten exactly by a live-acquisition
success, in which case it holds the delivered snapshot re-tagged
`source := cached`; a run in which live acquisition fails — whether it falls
back to the cache (fresh or stale) or reports an error — leaves the cache
unchanged, for scheduled runs and `forceUpdate` alike. In particular the
cached-fallback success does not write its re-stamped snapshot back. -/
theorem cache_write_spec :
    ∀ (label : String) (env : RunEnv) (hist : List LocationUpdate)
      (cache : Option LocationResult),
      (∀ location, env.liveResult = Except.ok location →
        (tryLocationUpdate label env hist cache).cache =
          some { location with source := Source.cached } ∧
        (forceUpdate env hist cache).2.cache =
          some { location with source := Source.cached }) ∧
      (∀ e, env.liveResult = Except.error e →
        (tryLocationUpdate label env hist cache).cache = cache ∧
        (forceUpdate env hist cache).2.cache = cache) := by
  intro label env hist cache
  constructor
  · intro location h
    constructor
    · rw [tryLocationUpdate_live label env hist cache location h]
    · unfold forceUpdate
      rw [h]
      rfl
  · intro e h
    constructor
    · unfold tryLocationUpdate
      rw [h]
      cases hcc : getCachedLocation cache with
      | none => rfl
      | some cl =>
          dsimp only
          split <;> rfl
    · unfold forceUpdate
      rw [h]
      cases hcc : getCachedLocation cache with
      | none => rfl
      | some cl => rfl

/-- A run environment whose live acquisition succeeds with `sampleSnapshot`. -/
def liveEnv : RunEnv := { now := 100, liveResult := Except.ok sampleSnapshot }

/-- Witness for C7 (amended): a concrete live success overwrites the cache;
a concrete live failure over a stale cache leaves it unchanged. -/
theorem cache_write_spec_witness :
    (tryLocationUpdate "Evening" liveEnv [] none).cache =
      some { sampleSnapshot with source := Source.cached } ∧
    (forceUpdate liveEnv [] none).2.cache =
      some { sampleSnapshot with source := Source.cached } ∧
    (tryLocationUpdate "Evening" staleEnv [] (some cachedParis)).cache = some cachedParis ∧
    (forceUpdate staleEnv [] (some cachedParis)).2.cache = some cachedParis :=
  ⟨((cache_write_spec "Evening" liveEnv [] none).1 sampleSnapshot rfl).1,
   ((cache_write_spec "Evening" liveEnv [] none).1 sampleSnapshot rfl).2,
   ((cache_write_spec "Evening" staleEnv [] (some cachedParis)).2 "GPS unavailable" rfl).1,
   ((cache_write_spec "Evening" staleEnv [] (some cachedParis)).2 "GPS unavailable" rfl).2⟩

/-- Every completed pipeline run invokes exactly one callback: onUpdate with
the delivered snapshot, or onError with the failure message. -/
theorem tryLocationUpdate_emits (label : String) (env : RunEnv)
    (hist : List LocationUpdate) (cache : Option LocationResult) :
    (∃ loc, (tryLocationUpdate label env hist cache).events = [CallbackEvent.update loc]) ∨
    (∃ msg, (tryLocationUpdate label env hist cache).events = [CallbackEvent.error msg]) := by
  cases h : env.liveResult with
  | ok location =>
      rw [tryLocationUpdate_live label env hist cache location h]
      exact Or.inl ⟨location, rfl⟩
  | error e =>
      cases hc : getCachedLocation cache with
      | none =>
          rw [tryLocationUpdate_failure label e env hist cache h
            (fun cl hcl => absurd (hc ▸ hcl) (by simp))]
          exact Or.inr ⟨_, rfl⟩
      | some cl =>
          cases hf : isCachedLocationFresh env.now cl with
          | true =>
              rw [tryLocationUpdate_cachedFresh label e env hist cache cl h hc hf]
              exact Or.inl ⟨_, rfl⟩
          | false =>
              have hstale : ∀ cl2, getCachedLocation cache = some cl2 →
                  isCachedLocationFresh env.now cl2 = false := by
                intro cl2 hcl2
                rw [hc] at hcl2
                injection hcl2 with he
                rw [← he]
                exact hf
              rw [tryLocationUpdate_failure label e env hist cache h hstale]
              exact Or.inr ⟨_, rfl⟩

/-- Claim C10: a `start()` from Idle sets the scheduler Active, arms one timer
per configured slot, and additionally runs the pipeline once immediately (the
Initial update), whose single callback invocation (onUpdate or onError) is
therefore delivered with `start`, before any slot timer fires. -/
theorem start_runs_initial_update :
    ∀ (env : RunEnv) (s : SchedulerState),
      s.isActive = false →
      (start env s).1.isActive = true ∧
      (start env s).1.intervals = s.intervals ++ ["Morning", "Afternoon", "Evening"] ∧
      (start env s).2 = (tryLocationUpdate "Initial" env s.history s.cache).events ∧
      ((∃ loc, (start env s).2 = [CallbackEvent.update loc]) ∨
       (∃ msg, (start env s).2 = [CallbackEvent.error msg])) := by
  intro env s h
  have hs : start env s =
      ({ isActive := true,
         intervals := s.intervals ++ scheduledTimes.map ScheduledTime.label,
         history := (tryLocationUpdate "Initial" env s.history s.cache).history,
         cache := (tryLocationUpdate "Initial" env s.history s.cache).cache },
       (tryLocationUpdate "Initial" env s.history s.cache).events) := by
    unfold start
    rw [if_neg (by rw [h]; exact Bool.false_ne_true)]
  rw [hs]
  exact ⟨rfl, rfl, rfl, tryLocationUpdate_emits "Initial" env s.history s.cache⟩

/-- The scheduler state as constructed: inactive, no timers, empty persisted
state. -/
def idleState : SchedulerState :=
  { isActive := false, intervals := [], history := [], cache := none }

/-- Witness for C10: starting from the freshly constructed state immediately
delivers the Initial run's callback and arms the three slots. -/
theorem start_runs_initial_update_witness :
    idleState.isActive = false ∧
    (start staleEnv idleState).1.isActive = true ∧
    (start staleEnv idleState).1.intervals = ["Morning", "Afternoon", "Evening"] ∧
    (start staleEnv idleState).2 =
      (tryLocationUpdate "Initial" staleEnv [] none).events :=
  ⟨rfl, (start_runs_initial_update staleEnv idleState rfl).1,
   (start_runs_initial_update staleEnv idleState rfl).2.1,
   (start_runs_initial_update staleEnv idleState rfl).2.2.1⟩

/-- On every reachable state, an inactive scheduler has no armed timers. -/
theorem reachable_idle_no_timers :
    ∀ {s : SchedulerState}, Reachable s → s.isActive = false → s.intervals = [] := by
  intro s hr
  induction hr with
  | init history cache => intro _; rfl
  | started env s' hs ih =>
      intro h
      by_cases ha : s'.isActive = true
      · simp [start, ha] at h
      · simp [start, ha] at h
  | stopped s' hs ih =>
      intro _
      unfold stop
      cases ha : s'.isActive with
      | true => rw [if_neg (by simp)]
      | false =>
          rw [if_pos (by decide)]
          exact ih ha
  | fired label env s' hs hact ih =>
      intro h
      simp [slotFire, hact] at h
  | forced env s' hs ih =>
      intro h
      simp only [forceStep] at h ⊢
      exact ih h

/-- Claim C8: on every reachable scheduler state, calling `start` while Active
is a complete no-op (the state, timers included, is unchanged and no event is
emitted), and `stop` from any state leaves the scheduler Idle with every armed
timer cancelled — no timer outlives a stop. -/
theorem start_stop_lifecycle :
    ∀ (s : SchedulerState), Reachable s →
      (s.isActive = true → ∀ env, start env s = (s, [])) ∧
      (stop s).isActive = false ∧
      (stop s).intervals = [] := by
  intro s hr
  refine ⟨fun ha env => ?_, ?_, ?_⟩
  · unfold start
    rw [if_pos ha]
  · unfold stop
    cases ha : s.isActive with
    | true => rw [if_neg (by simp)]
    | false =>
        rw [if_pos (by decide)]
        exact ha
  · unfold stop
    cases ha : s.isActive with
    | true => rw [if_neg (by simp)]
    | false =>
        rw [if_pos (by decide)]
        exact reachable_idle_no_timers hr ha

/-- The state after one `start` from the constructed state. -/
def startedState : SchedulerState := (start staleEnv idleState).1

/-- Witness for C8: on the concrete reachable Active state, a second `start`
changes nothing and `stop` clears the armed timers. -/
theorem start_stop_lifecycle_witness :
    startedState.isActive = true ∧
    start staleEnv startedState = (startedState, []) ∧
    (stop startedState).isActive = false ∧
    (stop startedState).intervals = [] :=
  ⟨rfl,
   (start_stop_lifecycle startedState
     (Reachable.started staleEnv idleState (Reachable.init [] none))).1 rfl staleEnv,
   (start_stop_lifecycle startedState
     (Reachable.started staleEnv idleState (Reachable.init [] none))).2.1,
   (start_stop_lifecycle startedState
     (Reachable.started staleEnv idleState (Reachable.init [] none))).2.2⟩

end Loopin
